import Mathlib

/-!
Shallow embedding of the observ-metrics core (Filter engine, DomainInstrumentor,
ObservMetrics coordinator) and verification of the specification's claims.

Browser-ambient state (navigator.userAgent, window/screen probes, the current
page hostname, Math.random draws and Date.now) is threaded explicitly through
environment records; everything computable from the modelled inputs is
translated directly from the TypeScript source.
-/

set_option linter.unusedVariables false

namespace ObservMetrics

/-- Substring test on character lists: `subList pat l` is true iff `pat`
occurs contiguously in `l` (model of JavaScript `String.includes` and of a
plain-literal regex test). -/
def subList (pat : List Char) : List Char → Bool
  | [] => pat.isEmpty
  | c :: rest => pat.isPrefixOf (c :: rest) || subList pat rest

/-- `strContains s pat`: `pat` occurs as a contiguous substring of `s`. -/
def strContains (s pat : String) : Bool :=
  subList pat.toList s.toList

/-- Case-insensitive substring test (model of a case-insensitive regex
literal; lower-casing is applied character-wise, which agrees with
JavaScript case folding on the ASCII pattern literals involved). -/
def strContainsCI (s pat : String) : Bool :=
  subList (pat.toList.map Char.toLower) (s.toList.map Char.toLower)

/-- `strEnds s pat`: `s` ends with `pat` (model of a `$`-anchored regex literal). -/
def strEnds (s pat : String) : Bool :=
  pat.toList.isSuffixOf s.toList

/-- Severities of `TelemetryEvent.severity` (src/types.ts). -/
inductive Severity
  | info | warn | error | critical
deriving DecidableEq

/-- Event types of `TelemetryEvent.eventType` (src/types.ts). -/
inductive EventType
  | span | metric | log | error
deriving DecidableEq

/-- `BusinessContext.businessImpact` values (src/types.ts). -/
inductive BusinessImpact
  | revenue | engagement | performance | reliability
deriving DecidableEq

/-- `UserContext.deviceType` values (src/types.ts). -/
inductive DeviceType
  | mobile | tablet | desktop
deriving DecidableEq

/-- `DomainConfig.priority` values (src/types.ts). -/
inductive Priority
  | critical | high | medium | low
deriving DecidableEq

/-- Scalar attribute values stored in the string-keyed `attributes` /
`customAttributes` maps (TypeScript `Record<string, any>` restricted to the
scalars the library actually stores). -/
inductive AttrValue
  | str (s : String)
  | num (q : ℚ)
  | bool (b : Bool)
deriving DecidableEq

/-- JavaScript truthiness of an attribute value. -/
def AttrValue.truthy : AttrValue → Bool
  | .str s => s ≠ ""
  | .num q => q ≠ 0
  | .bool b => b

/-- The string a regex test coerces an attribute value to.  (The library only
ever stores strings under the URL / stack keys the filter reads.) -/
def AttrValue.asString : AttrValue → String
  | .str s => s
  | .num q => toString q
  | .bool b => if b then "true" else "false"

/-- Lookup in a string-keyed attribute map; a missing key is JavaScript
`undefined`, which is falsy and is modelled by the falsy `.str ""`. -/
def attrGetD (attrs : List (String × AttrValue)) (k : String) : AttrValue :=
  match attrs.lookup k with
  | some v => v
  | none => .str ""

/-- `BusinessContext` (src/types.ts). -/
structure BusinessContext where
  domain : String
  feature : Option String := none
  userJourney : Option String := none
  businessImpact : BusinessImpact
  customMetrics : List (String × ℚ) := []
deriving DecidableEq

/-- `TelemetryEvent` (src/types.ts). -/
structure TelemetryEvent where
  id : String
  timestamp : String
  domain : String
  eventType : EventType
  name : String
  attributes : List (String × AttrValue)
  businessContext : BusinessContext
  severity : Option Severity := none
deriving DecidableEq

/-- `UserContext` (src/types.ts). -/
structure UserContext where
  userId : Option String := none
  sessionId : String
  userSegment : String
  isAuthenticated : Bool
  deviceType : DeviceType
  customAttributes : Option (List (String × AttrValue)) := none

/-- `FilterConfig` (src/types.ts); an absent `customFilters` array behaves
exactly like an empty one in `shouldProcess`, so it is modelled as a list. -/
structure FilterConfig where
  enableBotDetection : Bool
  domainWhitelist : List String
  errorThreshold : ℚ
  samplingRate : ℚ
  excludeExtensions : Bool
  excludeThirdPartyErrors : Bool
  customFilters : List (TelemetryEvent → UserContext → Bool) := []

/-- Browser-ambient inputs read by the Filter engine: the user-agent string,
the boolean outcomes of the window/screen probes in `hasHeadlessIndicators`,
`hasAutomationIndicators` and `hasUnusualSessionCharacteristics`, the current
page hostname, and the `Math.random()` draw consumed by the sampling rule. -/
structure FilterEnv where
  userAgent : String
  headlessIndicators : Bool
  automationIndicators : Bool
  unusualSession : Bool
  hostname : String
  randomDraw : ℚ

/-- The bot user-agent patterns of `Filter.initializePatterns` (all
case-insensitive plain literals). -/
def botPatterns : List String :=
  ["bot", "crawler", "spider", "scraper",
   "phantom", "headless", "selenium",
   "puppeteer", "playwright",
   "googlebot", "bingbot", "slurp",
   "facebookexternalhit", "twitterbot",
   "linkedinbot", "whatsapp", "telegrambot"]

/-- The browser-extension patterns of `Filter.initializePatterns` (all
case-insensitive plain literals). -/
def extensionPatterns : List String :=
  ["chrome-extension:", "moz-extension:", "safari-extension:",
   "extension/", "addon", "greasemonkey",
   "tampermonkey", "adblock", "ublock",
   "ghostery", "privacy", "disconnect"]

/-- The noise patterns of the form `/\.ext(\?|$)/`: match iff the URL contains
`".ext?"` or ends with `".ext"`. -/
def noiseSuffixPatterns : List String :=
  [".css", ".js", ".png", ".jpg", ".gif", ".svg", ".woff", ".ttf", ".ico"]

/-- The remaining noise patterns, plain (case-sensitive) literals. -/
def noisePlainPatterns : List String :=
  ["favicon", "manifest.json", "robots.txt",
   "sw.js", "service-worker", "workbox"]

/-- `Filter.isBotSession`: user-agent pattern match OR headless indicators OR
automation indicators OR unusual session characteristics.  The three probe
families read only browser globals, so their outcomes live in the
environment; the `context` argument is unused by the source as well. -/
def isBotSession (env : FilterEnv) (context : UserContext) : Bool :=
  botPatterns.any (fun p => strContainsCI env.userAgent p)
  || env.headlessIndicators
  || env.automationIndicators
  || env.unusualSession

/-- `Filter.isDomainAllowed`: an empty whitelist allows everything, otherwise
the current page hostname must be a member. -/
def isDomainAllowed (f : FilterConfig) (env : FilterEnv) (event : TelemetryEvent) : Bool :=
  if f.domainWhitelist = [] then true
  else f.domainWhitelist.contains env.hostname

/-- The URL string the filter reads:
`event.attributes['http.url'] || event.attributes['url'] || ''`. -/
def eventUrl (event : TelemetryEvent) : String :=
  let a := attrGetD event.attributes "http.url"
  if a.truthy then a.asString
  else
    let b := attrGetD event.attributes "url"
    if b.truthy then b.asString else ""

/-- The stack string the extension filter reads:
`event.attributes['error.stack'] || ''`. -/
def eventStack (event : TelemetryEvent) : String :=
  let a := attrGetD event.attributes "error.stack"
  if a.truthy then a.asString else ""

/-- `Filter.isNoiseEvent`: some noise pattern matches the event URL. -/
def isNoiseEvent (event : TelemetryEvent) : Bool :=
  let url := eventUrl event
  noiseSuffixPatterns.any (fun p => strContains url (p ++ "?") || strEnds url p)
  || noisePlainPatterns.any (fun p => strContains url p)

/-- `Filter.isExtensionEvent`: some extension pattern matches the event URL
or the stack attribute. -/
def isExtensionEvent (event : TelemetryEvent) : Bool :=
  let url := eventUrl event
  let stack := eventStack event
  extensionPatterns.any (fun p => strContainsCI url p || strContainsCI stack p)

/-- `Filter.shouldProcess` (src/core/SmartFilter.ts, lines 51-92), translated
rule by rule in source order. -/
def shouldProcess (f : FilterConfig) (env : FilterEnv)
    (event : TelemetryEvent) (context : UserContext) : Bool :=
  if event.severity = some Severity.error ∨ event.severity = some Severity.critical then
    true
  else if f.enableBotDetection && isBotSession env context then
    false
  else if !isDomainAllowed f env event then
    false
  else if isNoiseEvent event then
    false
  else if f.excludeExtensions && isExtensionEvent event then
    false
  else if f.customFilters.any (fun flt => !flt event context) then
    false
  else if env.randomDraw > f.samplingRate then
    false
  else
    true

/-- `DomainConfig` (src/types.ts).  `slaTarget` and `errorThreshold` are
JavaScript numbers carrying exact millisecond / ratio values; they are
modelled as rationals. -/
structure DomainConfig where
  name : String
  priority : Priority
  slaTarget : ℚ
  errorThreshold : ℚ
  features : List String
  customAttributes : List (String × AttrValue) := []
deriving DecidableEq

/-- `ApiCallContext` (src/types.ts); `instrumentApiCall` only reads the
journey linkage and the custom attributes. -/
structure ApiCallContext where
  endpoint : Option String := none
  method : Option String := none
  journeyName : Option String := none
  stepName : Option String := none
  customAttributes : List (String × AttrValue) := []

/-- A JavaScript `Error` as the instrumentor reads it: `name`, `message`,
`stack`. -/
structure JsError where
  name : String
  message : String
  stack : String
deriving DecidableEq

/-- `InstrumentationResult` (src/types.ts). -/
structure InstrumentationResult where
  success : Bool
  duration : ℕ
  error : Option JsError := none
  customMetrics : List (String × ℚ) := []
deriving DecidableEq

/-- The id and ISO timestamp `emitTelemetryEvent` generates from
`Date.now()` / `Math.random()`; environmental inputs of every emission. -/
structure EventMeta where
  id : String
  timestamp : String

/-- Resolution of the wrapped operation of `instrumentApiCall`: the resolved
`executeApiCall` response status, or the caught rejection. -/
inductive ApiOutcome
  | success (status : ℕ)
  | failure (e : JsError)

/-- Resolution of the caller-supplied operation of `instrumentUserJourney`. -/
inductive JourneyOutcome
  | success
  | failure (e : JsError)

/-- Rendering of a `Priority` as the string the attribute map stores. -/
def Priority.asString : Priority → String
  | .critical => "critical" | .high => "high" | .medium => "medium" | .low => "low"

/-- Rendering of a `DeviceType` as the string the attribute map stores. -/
def DeviceType.asString : DeviceType → String
  | .mobile => "mobile" | .tablet => "tablet" | .desktop => "desktop"

/-- `DomainInstrumentor.getApiBusinessImpact`: fixed API-name lookup with
default `performance`. -/
def getApiBusinessImpact (apiName : String) : BusinessImpact :=
  if apiName = "login" then .engagement
  else if apiName = "register" then .engagement
  else if apiName = "checkout" then .revenue
  else if apiName = "payment" then .revenue
  else if apiName = "search" then .engagement
  else if apiName = "cart" then .revenue
  else .performance

/-- `DomainInstrumentor.getJourneyBusinessImpact`: fixed journey-name lookup
with default `engagement`. -/
def getJourneyBusinessImpact (journeyName : String) : BusinessImpact :=
  if journeyName = "user_login_flow" then .engagement
  else if journeyName = "purchase_flow" then .revenue
  else if journeyName = "product_discovery" then .engagement
  else .engagement

/-- `DomainInstrumentor.getMetricBusinessImpact`: substring matching on the
metric name with default `reliability`. -/
def getMetricBusinessImpact (metricName : String) : BusinessImpact :=
  if strContains metricName "revenue" || strContains metricName "purchase" then .revenue
  else if strContains metricName "login" || strContains metricName "engagement" then .engagement
  else if strContains metricName "latency" || strContains metricName "performance" then .performance
  else .reliability

/-- `DomainInstrumentor.getSlaViolationSeverity`: bucket of the ratio
`duration / slaTarget`. -/
def getSlaViolationSeverity (domain : DomainConfig) (duration : ℚ) : String :=
  let ratio := duration / domain.slaTarget
  if ratio > 3 then "critical"
  else if ratio > 2 then "high"
  else if ratio > 3/2 then "medium"
  else "low"

/-- `DomainInstrumentor.getStepNumber`: index+1 in the fixed per-journey step
list; `Array.indexOf` yields -1 for an unknown step, hence 0. -/
def getStepNumber (journeyName stepName : String) : ℕ :=
  let steps : List String :=
    if journeyName = "user_login_flow" then
      ["load_login_page", "enter_credentials", "submit_login", "redirect_dashboard"]
    else if journeyName = "purchase_flow" then
      ["add_to_cart", "view_cart", "enter_shipping", "select_payment", "complete_purchase"]
    else if journeyName = "product_discovery" then
      ["search_query", "view_results", "filter_results", "select_product"]
    else []
  match steps.indexOf? stepName with
  | some i => i + 1
  | none => 0

/-- `DomainInstrumentor.createBusinessContext`. -/
def createBusinessContext (domain : DomainConfig) (apiName : String)
    (ctx : ApiCallContext) : BusinessContext :=
  { domain := domain.name
    feature := some apiName
    userJourney := ctx.journeyName
    businessImpact := getApiBusinessImpact apiName }

/-- The attribute set `instrumentApiCall` builds before executing the call
(domain context, API context, user context, optional journey linkage, then
caller and domain custom attributes). -/
def apiCallAttributes (domain : DomainConfig) (user : UserContext)
    (name endpoint method : String) (ctx : ApiCallContext) : List (String × AttrValue) :=
  [("domain.name", .str domain.name),
   ("domain.priority", .str domain.priority.asString),
   ("domain.sla_target_ms", .num domain.slaTarget),
   ("domain.error_threshold", .num domain.errorThreshold),
   ("api.name", .str name),
   ("http.method", .str method),
   ("http.url", .str endpoint),
   ("user.session_id", .str user.sessionId),
   ("user.segment", .str user.userSegment),
   ("user.authenticated", .bool user.isAuthenticated),
   ("user.device_type", .str user.deviceType.asString)]
  ++ (match ctx.journeyName with
      | some j => [("journey.name", .str j),
                   ("journey.step", .str (ctx.stepName.getD "unknown"))]
      | none => [])
  ++ ctx.customAttributes
  ++ domain.customAttributes

/-- `DomainInstrumentor.instrumentApiCall`
(src/core/DomainInstrumentor.ts, lines 62-201).

The wrapped call's resolution (`outcome`) and the measured wall-clock
duration in milliseconds are environmental inputs; `meta` carries the id and
timestamp `emitTelemetryEvent` generates.  The function returns the
`InstrumentationResult` (the method never rethrows: both branches return)
together with the list of telemetry events handed to the sink, exactly one
per branch. -/
def instrumentApiCall (domain : DomainConfig) (user : UserContext) (meta : EventMeta)
    (name endpoint method : String) (ctx : ApiCallContext)
    (outcome : ApiOutcome) (duration : ℕ) :
    InstrumentationResult × List TelemetryEvent :=
  let spanName := domain.name ++ "." ++ name
  match outcome with
  | .success status =>
    let attributes := apiCallAttributes domain user name endpoint method ctx
    let slaViolated : Bool := (duration : ℚ) > domain.slaTarget
    let ev : TelemetryEvent :=
      { id := meta.id
        timestamp := meta.timestamp
        domain := domain.name
        eventType := .span
        name := spanName
        attributes := attributes
        businessContext := createBusinessContext domain name ctx
        severity := some (if slaViolated then .warn else .info) }
    ({ success := true
       duration := duration
       error := none
       customMetrics :=
         [("sla_violated", if slaViolated then 1 else 0),
          ("response_status", (status : ℚ))] },
     [ev])
  | .failure e =>
    let ev : TelemetryEvent :=
      { id := meta.id
        timestamp := meta.timestamp
        domain := domain.name
        eventType := .error
        name := spanName ++ "_error"
        attributes :=
          [("error.type", .str e.name),
           ("error.message", .str e.message),
           ("error.stack", .str e.stack)]
        businessContext := createBusinessContext domain name ctx
        severity := some .error }
    ({ success := false
       duration := duration
       error := some e
       customMetrics := [("error_occurred", 1)] },
     [ev])

/-- The attribute set `instrumentUserJourney` builds. -/
def journeyAttributes (domain : DomainConfig) (user : UserContext)
    (journeyName stepName : String) : List (String × AttrValue) :=
  [("domain.name", .str domain.name),
   ("journey.name", .str journeyName),
   ("journey.step", .str stepName),
   ("journey.step_number", .num (getStepNumber journeyName stepName : ℚ)),
   ("user.session_id", .str user.sessionId),
   ("user.segment", .str user.userSegment),
   ("conversion.tracking", .bool true)]

/-- `DomainInstrumentor.instrumentUserJourney`
(src/core/DomainInstrumentor.ts, lines 206-297).

On success it emits one `span` event; on failure (the caller-supplied
operation rejects) the catch branch records the failure metric and returns
without emitting any telemetry event and without rethrowing. -/
def instrumentUserJourney (domain : DomainConfig) (user : UserContext) (meta : EventMeta)
    (journeyName stepName : String) (outcome : JourneyOutcome) (duration : ℕ) :
    InstrumentationResult × List TelemetryEvent :=
  let spanName := domain.name ++ ".journey." ++ journeyName ++ "." ++ stepName
  match outcome with
  | .success =>
    let ev : TelemetryEvent :=
      { id := meta.id
        timestamp := meta.timestamp
        domain := domain.name
        eventType := .span
        name := spanName
        attributes := journeyAttributes domain user journeyName stepName
        businessContext :=
          { domain := domain.name
            userJourney := some journeyName
            businessImpact := getJourneyBusinessImpact journeyName }
        severity := some .info }
    ({ success := true
       duration := duration
       error := none
       customMetrics :=
         [("journey_step_completed", 1), ("step_duration_ms", (duration : ℚ))] },
     [ev])
  | .failure e =>
    ({ success := false
       duration := duration
       error := some e
       customMetrics := [("journey_step_failed", 1)] },
     [])

/-- `DomainInstrumentor.recordBusinessMetric`
(src/core/DomainInstrumentor.ts, lines 302-331): synchronous, emits exactly
one `metric`-type event. -/
def recordBusinessMetric (domain : DomainConfig) (user : UserContext) (meta : EventMeta)
    (metricName : String) (value : ℚ) (context : List (String × AttrValue)) :
    TelemetryEvent :=
  let labels : List (String × AttrValue) :=
    [("domain", .str domain.name),
     ("metric_name", .str metricName),
     ("user_segment", .str user.userSegment)]
    ++ context
  { id := meta.id
    timestamp := meta.timestamp
    domain := domain.name
    eventType := .metric
    name := domain.name ++ ".business." ++ metricName
    attributes :=
      [("metric.name", .str metricName), ("metric.value", .num value)] ++ labels
    businessContext :=
      { domain := domain.name
        businessImpact := getMetricBusinessImpact metricName }
    severity := some .info }

/-- `Partial<UserContext>`: the construction-time / update-time user context
where every field may be absent. -/
structure PartialUserContext where
  userId : Option String := none
  sessionId : Option String := none
  userSegment : Option String := none
  isAuthenticated : Option Bool := none
  deviceType : Option DeviceType := none
  customAttributes : Option (List (String × AttrValue)) := none

/-- `PlatformConfig.platform` values (src/types.ts). -/
inductive Platform
  | datadog | newrelic | grafana | jaeger | console
deriving DecidableEq

/-- `ObservMetricsConfig` after the constructor's defaulting (the constructor
fills `userContext: {}` and `platform: 'console'` when absent, so the state
always holds concrete values for both). -/
structure Config where
  userContext : PartialUserContext
  domains : List DomainConfig
  filtering : FilterConfig
  platform : Platform
  debug : Bool := false

/-- An instrumentor entry of the coordinator's map: a `DomainInstrumentor`
is fully determined by the `DomainConfig` and the `UserContext` snapshot it
was constructed with (the sink callback is the coordinator's own
`handleTelemetryEvent`). -/
structure InstrEntry where
  domain : DomainConfig
  userContext : UserContext

/-- The mutable fields of an `ObservMetrics` instance (src/index.ts).  The
instrumentor `Map` is modelled as an insertion-ordered association list. -/
structure CoordState where
  config : Config
  instrumentors : List (String × InstrEntry)
  exporters : List String
  events : List TelemetryEvent
  isInitialized : Bool

/-- Ambient inputs of the coordinator's operations: `Date.now()` at the
moment `getCurrentUserContext` runs, the mobile user-agent test, the outcome
of `Filter.isRealUserSession`, the outcome of the OpenTelemetry setup in
`initializeOpenTelemetry`, and the filter environment used on the event
path. -/
structure CoordEnv where
  now : ℕ
  mobileUA : Bool
  isRealUser : Bool
  otelError : Option JsError := none
  filterEnv : FilterEnv

/-- `Map.set`: overwrite in place when the key exists, append otherwise. -/
def mapSet {α : Type} (m : List (String × α)) (k : String) (v : α) :
    List (String × α) :=
  match m with
  | [] => [(k, v)]
  | (k', v') :: rest =>
    if k' = k then (k, v) :: rest else (k', v') :: mapSet rest k v

/-- `Map.get`. -/
def mapGet {α : Type} (m : List (String × α)) (k : String) : Option α :=
  match m with
  | [] => none
  | (k', v') :: rest => if k' = k then some v' else mapGet rest k

/-- `Array.from(keys()).join(', ')`. -/
def joinComma : List String → String
  | [] => ""
  | [k] => k
  | k :: rest => k ++ ", " ++ joinComma rest

/-- `ObservMetrics.getCurrentUserContext` (src/index.ts, lines 271-279):
spread of defaults overridden by `config.userContext`; with no supplied
sessionId, a fresh `session_${Date.now()}` is produced on every call. -/
def getCurrentUserContext (c : Config) (env : CoordEnv) : UserContext :=
  { sessionId := c.userContext.sessionId.getD ("session_" ++ toString env.now)
    userSegment := c.userContext.userSegment.getD "anonymous"
    isAuthenticated := c.userContext.isAuthenticated.getD false
    deviceType :=
      c.userContext.deviceType.getD (if env.mobileUA then .mobile else .desktop)
    userId := c.userContext.userId
    customAttributes := c.userContext.customAttributes }

/-- `ObservMetrics.setupExporters` (src/index.ts, lines 135-165): exactly one
exporter is pushed, selected by the platform; `grafana`/`jaeger` fall to the
`console` default branch. -/
def setupExporters (p : Platform) : List String :=
  match p with
  | .datadog => ["datadog"]
  | .newrelic => ["newrelic"]
  | _ => ["console"]

/-- The `ObservMetrics` constructor (src/index.ts, lines 34-47): stores the
defaulted config, builds the Filter, and constructs the exporters.  No
instrumentor, no event, not initialized. -/
def mkObservMetrics (c : Config) : CoordState :=
  { config := c
    instrumentors := []
    exporters := setupExporters c.platform
    events := []
    isInitialized := false }

/-- `ObservMetrics.initializeDomainInstrumentors` (src/index.ts, lines
167-177): one `Map.set` per configured domain, each instrumentor bound to
the current user context. -/
def initializeDomainInstrumentors (s : CoordState) (env : CoordEnv) :
    List (String × InstrEntry) :=
  s.config.domains.foldl
    (fun m d => mapSet m d.name ⟨d, getCurrentUserContext s.config env⟩)
    s.instrumentors

/-- `ObservMetrics.initialize` (src/index.ts, lines 52-84).  Already
initialized: warn and return unchanged.  Not a real user session: return
unchanged (the flag stays false).  Otherwise run the OpenTelemetry setup —
a failure there is logged and rethrown — then build the domain
instrumentors and set the flag. -/
def initializeCoord (s : CoordState) (env : CoordEnv) : Except JsError CoordState :=
  if s.isInitialized then .ok s
  else if !env.isRealUser then .ok s
  else
    match env.otelError with
    | some e => .error e
    | none =>
      .ok { s with
              instrumentors := initializeDomainInstrumentors s env
              isInitialized := true }

/-- `ObservMetrics.destroy` (src/index.ts, lines 343-355): clears the
instrumentor map, the exporter list and the event log and resets the flag;
the config is kept. -/
def destroy (s : CoordState) : CoordState :=
  { s with
      instrumentors := []
      exporters := []
      events := []
      isInitialized := false }

/-- Shallow merge `{...old, ...partial}`: fields present in the partial
override old values. -/
def mergePartial (o p : PartialUserContext) : PartialUserContext :=
  { userId := p.userId <|> o.userId
    sessionId := p.sessionId <|> o.sessionId
    userSegment := p.userSegment <|> o.userSegment
    isAuthenticated := p.isAuthenticated <|> o.isAuthenticated
    deviceType := p.deviceType <|> o.deviceType
    customAttributes := p.customAttributes <|> o.customAttributes }

/-- `ObservMetrics.updateUserContext` (src/index.ts, lines 208-224): merge
the partial into `config.userContext`, then for every live instrumentor look
its domain up in `config.domains` and, when found, `Map.set` a fresh
instrumentor bound to the new current context (instrumentors are keyed by
their domain name, so the set overwrites the entry in place). -/
def updateUserContext (s : CoordState) (env : CoordEnv) (p : PartialUserContext) :
    CoordState :=
  let cfg : Config := { s.config with userContext := mergePartial s.config.userContext p }
  let inst' :=
    s.instrumentors.foldl
      (fun m kv =>
        match cfg.domains.find? (fun d => d.name = kv.2.domain.name) with
        | some d => mapSet m d.name ⟨d, getCurrentUserContext cfg env⟩
        | none => m)
      s.instrumentors
  { s with config := cfg, instrumentors := inst' }

/-- `ObservMetrics.getDomainInstrumentor` (src/index.ts, lines 182-188):
the found instrumentor, or a thrown error naming the missing domain and
joining the available keys. -/
def getDomainInstrumentor (s : CoordState) (domainName : String) :
    Except String InstrEntry :=
  match mapGet s.instrumentors domainName with
  | some i => .ok i
  | none =>
    .error ("Domain instrumentor not found: " ++ domainName
            ++ ". Available domains: " ++ joinComma (s.instrumentors.map Prod.fst))

/-- The aggregate returned by `ObservMetrics.getStats` (src/index.ts, lines
236-245), omitting the Filter diagnostics sub-record. -/
structure Stats where
  initialized : Bool
  domains : List String
  eventsProcessed : ℕ
  userContext : UserContext
  exporters : List String

/-- `ObservMetrics.getStats`. -/
def getStats (s : CoordState) (env : CoordEnv) : Stats :=
  { initialized := s.isInitialized
    domains := s.instrumentors.map Prod.fst
    eventsProcessed := s.events.length
    userContext := getCurrentUserContext s.config env
    exporters := s.exporters }

/-- `ObservMetrics.handleTelemetryEvent` (src/index.ts, lines 247-269): run
the filter; on rejection discard, on admission append to the in-memory log
and fire one `export([event])` call per registered exporter (each failure is
caught, never propagated).  The second component records the export calls
issued. -/
def handleTelemetryEvent (s : CoordState) (env : CoordEnv) (event : TelemetryEvent) :
    CoordState × List (String × TelemetryEvent) :=
  if !shouldProcess s.config.filtering env.filterEnv event
      (getCurrentUserContext s.config env) then
    (s, [])
  else
    ({ s with events := s.events ++ [event] },
     s.exporters.map (fun n => (n, event)))

/-! Sample concrete inputs used by witnesses and counterexamples. -/

/-- A plain informational span event with no URL-bearing attribute. -/
def sampleEventInfo : TelemetryEvent :=
  { id := "e1", timestamp := "2026-01-01T00:00:00.000Z", domain := "unknown",
    eventType := .span, name := "fetch",
    attributes := [],
    businessContext := { domain := "unknown", businessImpact := .performance },
    severity := some .info }

/-- The same event with `error` severity. -/
def sampleEventError : TelemetryEvent :=
  { sampleEventInfo with eventType := EventType.error, severity := some Severity.error }

/-- An ordinary desktop user. -/
def sampleUser : UserContext :=
  { sessionId := "sess_abc", userSegment := "anonymous",
    isAuthenticated := false, deviceType := .desktop }

/-- An ordinary browser environment with random draw 0. -/
def sampleFilterEnv : FilterEnv :=
  { userAgent := "Mozilla/5.0", headlessIndicators := false,
    automationIndicators := false, unusualSession := false,
    hostname := "localhost", randomDraw := 0 }

/-- The same environment with random draw 1/2. -/
def sampleFilterEnvHalf : FilterEnv := { sampleFilterEnv with randomDraw := 1/2 }

/-- An aggressive filter configuration: every rule enabled and sampling rate 0. -/
def strictFilterConfig : FilterConfig :=
  { enableBotDetection := true, domainWhitelist := [], errorThreshold := 5,
    samplingRate := 0, excludeExtensions := true,
    excludeThirdPartyErrors := true, customFilters := [] }

/-- The `authentication` domain of the library's default configuration. -/
def sampleDomain : DomainConfig :=
  { name := "authentication", priority := .critical, slaTarget := 2000,
    errorThreshold := 1/10, features := ["login", "register", "profile"] }

/-- A fixed event id / timestamp pair. -/
def sampleMeta : EventMeta :=
  { id := "evt_1", timestamp := "2026-01-01T00:00:00.000Z" }

/-- A sample rejection of a wrapped operation. -/
def sampleError : JsError :=
  { name := "Error", message := "API call failed: /api/login", stack := "Error: ..." }

/-! ## C1 -/

/-- C1: for every telemetry event whose severity is `error` or `critical`,
and for every filter configuration (any bot-detection setting, whitelist,
noise/extension settings, custom filters, and any sampling rate including 0)
and every environment and user context, `Filter.shouldProcess` returns
true. -/
theorem shouldProcess_admits_error_critical (f : FilterConfig) (env : FilterEnv)
    (event : TelemetryEvent) (context : UserContext)
    (h : event.severity = some Severity.error ∨ event.severity = some Severity.critical) :
    shouldProcess f env event context = true := by
  unfold shouldProcess
  rw [if_pos h]

/-- Witness for C1: a concrete error-severity event passes the strictest
configuration (sampling rate 0, every exclusion enabled). -/
theorem shouldProcess_admits_error_critical_witness :
    (sampleEventError.severity = some Severity.error ∨
      sampleEventError.severity = some Severity.critical) ∧
    shouldProcess strictFilterConfig sampleFilterEnv sampleEventError sampleUser = true :=
  ⟨Or.inl rfl,
   shouldProcess_admits_error_critical strictFilterConfig sampleFilterEnv
     sampleEventError sampleUser (Or.inl rfl)⟩

/-! ## C2 -/

/-- Counterexample for C2: with sampling rate 0 and no earlier rule deciding,
a random draw of exactly 0 — a possible value of a uniform draw in [0,1) —
makes the sampling guard `Math.random() > samplingRate` false, so
`shouldProcess` returns true, where the claim requires false for every
possible draw. -/
theorem shouldProcess_samplingZero_counterexample :
    strictFilterConfig.samplingRate = 0 ∧
    (0 : ℚ) ≤ sampleFilterEnv.randomDraw ∧ sampleFilterEnv.randomDraw < 1 ∧
    ¬(sampleEventInfo.severity = some Severity.error ∨
      sampleEventInfo.severity = some Severity.critical) ∧
    isBotSession sampleFilterEnv sampleUser = false ∧
    isDomainAllowed strictFilterConfig sampleFilterEnv sampleEventInfo = true ∧
    isNoiseEvent sampleEventInfo = false ∧
    isExtensionEvent sampleEventInfo = false ∧
    strictFilterConfig.customFilters = [] ∧
    shouldProcess strictFilterConfig sampleFilterEnv sampleEventInfo sampleUser = true := by
  refine ⟨rfl, by norm_num [sampleFilterEnv], by norm_num [sampleFilterEnv],
    by decide, by decide, rfl, by decide, by decide, rfl, ?_⟩
  rfl

/-- C2 (amended): under the claim's side conditions, when the sampling rate
is 0 the sampling rule rejects for every STRICTLY POSITIVE draw in [0,1)
(at a draw of exactly 0 the guard `draw > 0` fails and the event is
admitted), and when the sampling rate is 1 the rule never rejects for any
draw in [0,1). -/
theorem shouldProcess_sampling_rule (f : FilterConfig) (env : FilterEnv)
    (event : TelemetryEvent) (context : UserContext)
    (hsev : ¬(event.severity = some Severity.error ∨
              event.severity = some Severity.critical))
    (hbot : (f.enableBotDetection && isBotSession env context) = false)
    (hdom : isDomainAllowed f env event = true)
    (hnoise : isNoiseEvent event = false)
    (hext : (f.excludeExtensions && isExtensionEvent event) = false)
    (hcust : f.customFilters.any (fun flt => !flt event context) = false) :
    (f.samplingRate = 0 → 0 < env.randomDraw →
      shouldProcess f env event context = false) ∧
    (f.samplingRate = 1 → env.randomDraw < 1 →
      shouldProcess f env event context = true) := by
  unfold shouldProcess
  rw [if_neg hsev]
  simp only [hbot, hdom, hnoise, hext, hcust, Bool.false_eq_true, if_false,
    Bool.not_true, Bool.false_eq_true, if_true]
  constructor
  · intro h0 hpos
    rw [h0]
    simp [hpos]
  · intro h1 hlt
    rw [h1]
    simp [not_lt_of_gt hlt, not_lt.mpr hlt.le]

/-- Witness for C2 (amended): a concrete draw of 1/2 with sampling rate 0 is
rejected. -/
theorem shouldProcess_sampling_rule_witness :
    ¬(sampleEventInfo.severity = some Severity.error ∨
      sampleEventInfo.severity = some Severity.critical) ∧
    (strictFilterConfig.enableBotDetection &&
      isBotSession sampleFilterEnvHalf sampleUser) = false ∧
    isDomainAllowed strictFilterConfig sampleFilterEnvHalf sampleEventInfo = true ∧
    isNoiseEvent sampleEventInfo = false ∧
    (strictFilterConfig.excludeExtensions && isExtensionEvent sampleEventInfo) = false ∧
    strictFilterConfig.customFilters.any (fun flt => !flt sampleEventInfo sampleUser) = false ∧
    strictFilterConfig.samplingRate = 0 ∧
    (0 : ℚ) < sampleFilterEnvHalf.randomDraw ∧
    shouldProcess strictFilterConfig sampleFilterEnvHalf sampleEventInfo sampleUser = false := by
  refine ⟨by decide, by decide, rfl, by decide, by decide, rfl, rfl,
    by norm_num [sampleFilterEnvHalf, sampleFilterEnv], ?_⟩
  exact (shouldProcess_sampling_rule strictFilterConfig sampleFilterEnvHalf
    sampleEventInfo sampleUser (by decide) (by decide) rfl (by decide) (by decide) rfl).1
    rfl (by norm_num [sampleFilterEnvHalf, sampleFilterEnv])

/-! ## C3 -/

/-- C3: for every instrumentor and every wrapped operation that throws or
rejects with error `e` after measured elapsed time `d`, `instrumentApiCall`
returns (never throwing: the catch branch returns) the result
`{success: false, duration, error, customMetrics: {error_occurred: 1}}` and
emits exactly one event, of type `error` and severity `error`, whose
attributes carry the error's type, message and stack. -/
theorem instrumentApiCall_failure_path (domain : DomainConfig) (user : UserContext)
    (meta : EventMeta) (name endpoint method : String) (ctx : ApiCallContext)
    (e : JsError) (d : ℕ) :
    instrumentApiCall domain user meta name endpoint method ctx (.failure e) d =
      ({ success := false, duration := d, error := some e,
         customMetrics := [("error_occurred", 1)] },
       [{ id := meta.id, timestamp := meta.timestamp, domain := domain.name,
          eventType := .error, name := domain.name ++ "." ++ name ++ "_error",
          attributes := [("error.type", .str e.name),
                         ("error.message", .str e.message),
                         ("error.stack", .str e.stack)],
          businessContext := createBusinessContext domain name ctx,
          severity := some Severity.error }]) := rfl

/-! ## C4 -/

/-- C4: for every instrumentor and every caller-supplied operation that
rejects with error `e` after measured elapsed time `d`,
`instrumentUserJourney` returns (never throwing out of the instrumentor:
the catch branch returns) the result
`{success: false, duration, error, customMetrics: {journey_step_failed: 1}}`
and emits NO telemetry event on the failure path — unlike
`instrumentApiCall`, whose failure path emits exactly one event. -/
theorem instrumentUserJourney_failure_path (domain : DomainConfig)
    (user : UserContext) (meta : EventMeta) (journeyName stepName : String)
    (e : JsError) (d : ℕ) :
    instrumentUserJourney domain user meta journeyName stepName (.failure e) d =
      ({ success := false, duration := d, error := some e,
         customMetrics := [("journey_step_failed", 1)] },
       []) ∧
    (instrumentApiCall domain user meta journeyName "/x" "GET" {} (.failure e) d).2.length = 1 :=
  ⟨rfl, rfl⟩

/-! ## C5 -/

/-- C5: for every successful `instrumentApiCall` with measured duration `d`
and domain SLA target `t > 0`: `customMetrics.sla_violated` is 1 iff
`d > t` and 0 otherwise (equivalently, iff the ratio `d / t` exceeds 1);
the single emitted span event has severity `warn` iff `d > t` and `info`
otherwise; and the violation-severity bucket computed by
`getSlaViolationSeverity` is `critical` if `d / t > 3`, else `high` if
`d / t > 2`, else `medium` if `d / t > 1.5`, else `low`. -/
theorem instrumentApiCall_sla_spec (domain : DomainConfig) (user : UserContext)
    (meta : EventMeta) (name endpoint method : String) (ctx : ApiCallContext)
    (status : ℕ) (d : ℕ) (ht : 0 < domain.slaTarget) :
    ((instrumentApiCall domain user meta name endpoint method ctx
        (.success status) d).1.customMetrics.lookup "sla_violated" = some 1 ↔
      domain.slaTarget < (d : ℚ)) ∧
    ((instrumentApiCall domain user meta name endpoint method ctx
        (.success status) d).1.customMetrics.lookup "sla_violated" = some 0 ↔
      ¬ domain.slaTarget < (d : ℚ)) ∧
    (domain.slaTarget < (d : ℚ) ↔ 1 < (d : ℚ) / domain.slaTarget) ∧
    ((instrumentApiCall domain user meta name endpoint method ctx
        (.success status) d).2.map TelemetryEvent.severity =
      [some (if domain.slaTarget < (d : ℚ) then Severity.warn else Severity.info)]) ∧
    (3 < (d : ℚ) / domain.slaTarget →
      getSlaViolationSeverity domain (d : ℚ) = "critical") ∧
    (¬ 3 < (d : ℚ) / domain.slaTarget → 2 < (d : ℚ) / domain.slaTarget →
      getSlaViolationSeverity domain (d : ℚ) = "high") ∧
    (¬ 3 < (d : ℚ) / domain.slaTarget → ¬ 2 < (d : ℚ) / domain.slaTarget →
      3/2 < (d : ℚ) / domain.slaTarget →
      getSlaViolationSeverity domain (d : ℚ) = "medium") ∧
    (¬ 3 < (d : ℚ) / domain.slaTarget → ¬ 2 < (d : ℚ) / domain.slaTarget →
      ¬ 3/2 < (d : ℚ) / domain.slaTarget →
      getSlaViolationSeverity domain (d : ℚ) = "low") := by
  unfold instrumentApiCall
  refine ⟨?_, ?_, ?_, ?_, ?_, ?_, ?_, ?_⟩
  · by_cases h : domain.slaTarget < (d : ℚ) <;>
      simp [List.lookup, h, gt_iff_lt]
  · by_cases h : domain.slaTarget < (d : ℚ) <;>
      simp [List.lookup, h, gt_iff_lt]
  · rw [lt_div_iff₀ ht, one_mul]
  · by_cases h : domain.slaTarget < (d : ℚ) <;> simp [h, gt_iff_lt]
  · intro h; unfold getSlaViolationSeverity; rw [if_pos h]
  · intro h1 h2; unfold getSlaViolationSeverity; rw [if_neg h1, if_pos h2]
  · intro h1 h2 h3; unfold getSlaViolationSeverity
    rw [if_neg h1, if_neg h2, if_pos h3]
  · intro h1 h2 h3; unfold getSlaViolationSeverity
    rw [if_neg h1, if_neg h2, if_neg h3]

/-- Witness for C5: the sample domain has SLA target 2000 ms; a successful
call measured at 4100 ms is SLA-violated (`sla_violated = 1`), its span
event carries severity `warn`, and its ratio 2.05 buckets to `high`. -/
theorem instrumentApiCall_sla_spec_witness :
    (0 : ℚ) < sampleDomain.slaTarget ∧
    (instrumentApiCall sampleDomain sampleUser sampleMeta "login" "/api/login"
        "GET" {} (.success 200) 4100).1.customMetrics.lookup "sla_violated" = some 1 ∧
    (instrumentApiCall sampleDomain sampleUser sampleMeta "login" "/api/login"
        "GET" {} (.success 200) 4100).2.map TelemetryEvent.severity =
      [some Severity.warn] ∧
    getSlaViolationSeverity sampleDomain (4100 : ℚ) = "high" := by
  have ht : (0 : ℚ) < sampleDomain.slaTarget := by norm_num [sampleDomain]
  have h := instrumentApiCall_sla_spec sampleDomain sampleUser sampleMeta
    "login" "/api/login" "GET" {} 200 4100 ht
  refine ⟨ht, h.1.mpr (by norm_num [sampleDomain]), ?_, ?_⟩
  · rw [h.2.2.2.1, if_pos (by norm_num [sampleDomain])]
  · exact h.2.2.2.2.2.1 (by norm_num [sampleDomain]) (by norm_num [sampleDomain])

/-! ## Coordinator sample states -/

/-- A coordinator config whose caller supplied NO user-context fields. -/
def sampleConfigNoSession : Config :=
  { userContext := {}
    domains := [sampleDomain]
    filtering := strictFilterConfig
    platform := .console }

/-- A coordinator config whose caller supplied a sessionId. -/
def sampleConfigWithSession : Config :=
  { sampleConfigNoSession with
      userContext := { sessionId := some "sess_abc" } }

/-- A coordinator constructed without a caller-supplied sessionId. -/
def coordNoSession : CoordState := mkObservMetrics sampleConfigNoSession

/-- A coordinator constructed with a caller-supplied sessionId. -/
def coordWithSession : CoordState := mkObservMetrics sampleConfigWithSession

/-- Coordinator environment at clock reading `n` (real user, healthy
OpenTelemetry setup). -/
def envAt (n : ℕ) : CoordEnv :=
  { now := n, mobileUA := false, isRealUser := true, otelError := none,
    filterEnv := sampleFilterEnv }

/-- The partial context `{userSegment: "enterprise"}`. -/
def segPartial : PartialUserContext := { userSegment := some "enterprise" }

/-! ## C6 -/

/-- Counterexample for C6: for a coordinator whose caller supplied no
sessionId at construction, `getCurrentUserContext` regenerates
`session_${Date.now()}` on every call, so after
`updateUserContext({userSegment: "enterprise"})` the reported userSegment is
the new value but the reported sessionId differs from its value before the
update whenever the clock has advanced ("session_0" before, "session_1"
after) — the claim's "sessionId is unchanged ... regardless of whether the
caller supplied one at construction" fails. -/
theorem updateUserContext_sessionId_counterexample :
    (getStats (updateUserContext coordNoSession (envAt 1) segPartial)
        (envAt 1)).userContext.userSegment = "enterprise" ∧
    (getStats coordNoSession (envAt 0)).userContext.sessionId = "session_0" ∧
    (getStats (updateUserContext coordNoSession (envAt 1) segPartial)
        (envAt 1)).userContext.sessionId = "session_1" ∧
    ("session_1" : String) ≠ "session_0" :=
  ⟨rfl, rfl, rfl, by decide⟩

/-- C6 (amended): when the caller supplied a sessionId at construction,
`updateUserContext` with a partial context that does not mention sessionId
(e.g. only userSegment) changes `getStats().userContext.userSegment` to the
new value while `getStats().userContext.sessionId` is unchanged from its
value before the update, at every pair of clock readings. -/
theorem updateUserContext_preserves_supplied_sessionId
    (s : CoordState) (envBefore envAfter : CoordEnv) (p : PartialUserContext)
    (sid seg : String)
    (hsid : s.config.userContext.sessionId = some sid)
    (hp : p.sessionId = none)
    (hseg : p.userSegment = some seg) :
    (getStats s envBefore).userContext.sessionId = sid ∧
    (getStats (updateUserContext s envAfter p) envAfter).userContext.sessionId = sid ∧
    (getStats (updateUserContext s envAfter p) envAfter).userContext.userSegment = seg := by
  unfold getStats getCurrentUserContext updateUserContext mergePartial
  simp [hsid, hp, hseg]

/-- Witness for C6 (amended): the coordinator constructed with sessionId
"sess_abc" keeps it across an `updateUserContext({userSegment:
"enterprise"})`, while the segment becomes "enterprise". -/
theorem updateUserContext_preserves_supplied_sessionId_witness :
    coordWithSession.config.userContext.sessionId = some "sess_abc" ∧
    segPartial.sessionId = none ∧
    segPartial.userSegment = some "enterprise" ∧
    (getStats coordWithSession (envAt 0)).userContext.sessionId = "sess_abc" ∧
    (getStats (updateUserContext coordWithSession (envAt 1) segPartial)
        (envAt 1)).userContext.sessionId = "sess_abc" ∧
    (getStats (updateUserContext coordWithSession (envAt 1) segPartial)
        (envAt 1)).userContext.userSegment = "enterprise" := by
  have h := updateUserContext_preserves_supplied_sessionId coordWithSession
    (envAt 0) (envAt 1) segPartial "sess_abc" "enterprise" rfl rfl rfl
  exact ⟨rfl, rfl, rfl, h.1, h.2.1, h.2.2⟩

/-! ## C7 -/

/-- C7: `initialize()` is idempotent — on a coordinator already in the
Initialized state it logs a warning and returns with no observable state
change and no error: the returned state is the input state itself, so the
instrumentor set, the admitted-event count, the exporter list and the
initialized flag are all unchanged. -/
theorem initialize_idempotent (s : CoordState) (env : CoordEnv)
    (h : s.isInitialized = true) :
    initializeCoord s env = Except.ok s := by
  unfold initializeCoord
  simp [h]

/-- Witness for C7: a concrete initialized coordinator is returned
unchanged. -/
theorem initialize_idempotent_witness :
    ({ coordNoSession with isInitialized := true } : CoordState).isInitialized = true ∧
    initializeCoord { coordNoSession with isInitialized := true } (envAt 0) =
      Except.ok { coordNoSession with isInitialized := true } :=
  ⟨rfl, initialize_idempotent _ _ rfl⟩

/-! ## C8 -/

/-- Every member of a comma-joined key list occurs verbatim inside the
joined string. -/
theorem joinComma_split (k : String) (ks : List String) (h : k ∈ ks) :
    ∃ p q : String, joinComma ks = p ++ (k ++ q) := by
  induction ks with
  | nil => simp at h
  | cons a rest ih =>
    rcases List.mem_cons.mp h with rfl | hmem
    · cases rest with
      | nil =>
        exact ⟨"", "", by rw [joinComma, String.append_empty, String.empty_append]⟩
      | cons b rs =>
        refine ⟨"", ", " ++ joinComma (b :: rs), ?_⟩
        show k ++ ", " ++ joinComma (b :: rs) = "" ++ (k ++ (", " ++ joinComma (b :: rs)))
        rw [String.empty_append]
        exact String.append_assoc k ", " (joinComma (b :: rs))
    · cases rest with
      | nil => simp at hmem
      | cons b rs =>
        rcases ih hmem with ⟨p, q, hpq⟩
        refine ⟨(a ++ ", ") ++ p, q, ?_⟩
        show (a ++ ", ") ++ joinComma (b :: rs) = ((a ++ ", ") ++ p) ++ (k ++ q)
        rw [hpq]
        exact (String.append_assoc (a ++ ", ") p (k ++ q)).symm

/-- C8: for every coordinator state, `getDomainInstrumentor` returns the
stored instrumentor without throwing when the requested domain exists, and
when it does not, it throws (returns `Except.error`, never a stand-in
instrumentor) with a message in which the requested missing domain name and
every currently available domain name occur verbatim. -/
theorem getDomainInstrumentor_spec (s : CoordState) (domainName : String) :
    (∀ i, mapGet s.instrumentors domainName = some i →
        getDomainInstrumentor s domainName = Except.ok i) ∧
    (mapGet s.instrumentors domainName = none →
      ∃ msg, getDomainInstrumentor s domainName = Except.error msg ∧
        (∃ p q, msg = p ++ (domainName ++ q)) ∧
        (∀ k ∈ s.instrumentors.map Prod.fst, ∃ p q, msg = p ++ (k ++ q))) := by
  constructor
  · intro i h
    unfold getDomainInstrumentor
    rw [h]
  · intro h
    refine ⟨"Domain instrumentor not found: " ++ domainName
      ++ ". Available domains: " ++ joinComma (s.instrumentors.map Prod.fst),
      ?_, ?_, ?_⟩
    · unfold getDomainInstrumentor
      rw [h]
    · refine ⟨"Domain instrumentor not found: ",
        ". Available domains: " ++ joinComma (s.instrumentors.map Prod.fst), ?_⟩
      rw [String.append_assoc, String.append_assoc]
    · intro k hk
      rcases joinComma_split k _ hk with ⟨p, q, hpq⟩
      refine ⟨("Domain instrumentor not found: " ++ domainName
        ++ ". Available domains: ") ++ p, q, ?_⟩
      rw [hpq]
      exact (String.append_assoc _ p (k ++ q)).symm

/-- The instrumentor entry stored under "authentication". -/
def sampleInstrEntry : InstrEntry := ⟨sampleDomain, sampleUser⟩

/-- An initialized coordinator holding only the "authentication"
instrumentor. -/
def coordAuth : CoordState :=
  { coordNoSession with
      instrumentors := [("authentication", sampleInstrEntry)]
      isInitialized := true }

/-- Witness for C8: requesting "nonexistent" on a coordinator configured
with only "authentication" throws with a message containing both names,
while requesting "authentication" returns the stored instrumentor. -/
theorem getDomainInstrumentor_spec_witness :
    mapGet coordAuth.instrumentors "nonexistent" = none ∧
    (∃ msg, getDomainInstrumentor coordAuth "nonexistent" = Except.error msg ∧
      (∃ p q, msg = p ++ ("nonexistent" ++ q)) ∧
      (∀ k ∈ coordAuth.instrumentors.map Prod.fst, ∃ p q, msg = p ++ (k ++ q))) ∧
    mapGet coordAuth.instrumentors "authentication" = some sampleInstrEntry ∧
    getDomainInstrumentor coordAuth "authentication" = Except.ok sampleInstrEntry :=
  ⟨rfl,
   (getDomainInstrumentor_spec coordAuth "nonexistent").2 rfl,
   rfl,
   (getDomainInstrumentor_spec coordAuth "authentication").1 sampleInstrEntry rfl⟩

/-! ## C9 -/

/-- Counterexample for C9: the metric name "cart_value" contains none of the
substrings "revenue", "purchase", "login", "engagement", "latency",
"performance", so `recordBusinessMetric` emits its event with business
impact `reliability`, not `revenue` as the claim states (the `cart →
revenue` entry lives in the API-name map `getApiBusinessImpact`, which
`recordBusinessMetric` does not consult). -/
theorem recordBusinessMetric_cart_value_counterexample :
    (recordBusinessMetric sampleDomain sampleUser sampleMeta "cart_value" 100
        []).businessContext.businessImpact = BusinessImpact.reliability ∧
    BusinessImpact.reliability ≠ BusinessImpact.revenue :=
  ⟨rfl, by decide⟩

/-- C9 (amended): `recordBusinessMetric` with metric name "cart_value" emits
a metric-type event whose `businessContext.businessImpact` equals
`reliability`, the impact being derived by substring matching on the metric
name (contains "revenue"/"purchase" → revenue; "login"/"engagement" →
engagement; "latency"/"performance" → performance; else reliability), which
matches none of the substrings for "cart_value". -/
theorem recordBusinessMetric_cart_value_spec (domain : DomainConfig)
    (user : UserContext) (meta : EventMeta) (value : ℚ)
    (context : List (String × AttrValue)) :
    (recordBusinessMetric domain user meta "cart_value" value context).eventType
        = EventType.metric ∧
    (recordBusinessMetric domain user meta "cart_value" value
        context).businessContext.businessImpact = BusinessImpact.reliability ∧
    (∀ metricName : String,
      (recordBusinessMetric domain user meta metricName value
          context).businessContext.businessImpact = getMetricBusinessImpact metricName) ∧
    getMetricBusinessImpact "cart_value" = BusinessImpact.reliability :=
  ⟨rfl, rfl, fun _ => rfl, rfl⟩

/-! ## C10 -/

/-- C10: exporters are constructed only in the constructor
(`setupExporters` is called from the constructor alone): `initialize()`
never changes the exporter list, so after `destroy()` — which empties it —
a subsequent successful `initialize()` (real user session, healthy
OpenTelemetry setup) yields a state with `initialized = true`,
`eventsProcessed = 0` and an empty exporter list, and every event admitted
thereafter is appended to the in-memory event log while being delivered to
no exporter (the export-call list is empty for every event, admitted or
not). -/
theorem exporters_constructor_only (s : CoordState) (env : CoordEnv)
    (hreal : env.isRealUser = true) (hotel : env.otelError = none) :
    (∀ s', initializeCoord s env = Except.ok s' → s'.exporters = s.exporters) ∧
    (∃ s2, initializeCoord (destroy s) env = Except.ok s2 ∧
      s2.isInitialized = true ∧
      s2.exporters = [] ∧
      (getStats s2 env).eventsProcessed = 0 ∧
      (∀ ev, (handleTelemetryEvent s2 env ev).2 = [] ∧
        (shouldProcess s2.config.filtering env.filterEnv ev
            (getCurrentUserContext s2.config env) = true →
          (handleTelemetryEvent s2 env ev).1.events = s2.events ++ [ev]))) := by
  constructor
  · intro s' h
    unfold initializeCoord at h
    split at h
    · cases h
      rfl
    · rw [hreal] at h
      simp only [Bool.not_true, Bool.false_eq_true, if_false] at h
      rw [hotel] at h
      cases h
      rfl
  · refine ⟨{ destroy s with
        instrumentors := initializeDomainInstrumentors (destroy s) env
        isInitialized := true }, ?_, rfl, rfl, rfl, ?_⟩
    · unfold initializeCoord
      rw [hotel]
      simp [destroy, hreal]
    · intro ev
      constructor
      · unfold handleTelemetryEvent
        split
        · rfl
        · simp [destroy]
      · intro hadm
        unfold handleTelemetryEvent
        rw [hadm]
        simp

/-- Witness for C10: the concrete console coordinator, destroyed and
re-initialized at clock 0, reports `initialized = true`, zero processed
events and no exporters. -/
theorem exporters_constructor_only_witness :
    (envAt 0).isRealUser = true ∧ (envAt 0).otelError = none ∧
    (∃ s2, initializeCoord (destroy coordNoSession) (envAt 0) = Except.ok s2 ∧
      s2.isInitialized = true ∧ s2.exporters = [] ∧
      (getStats s2 (envAt 0)).eventsProcessed = 0) := by
  refine ⟨rfl, rfl, ?_⟩
  obtain ⟨s2, h1, h2, h3, h4, _⟩ :=
    (exporters_constructor_only coordNoSession (envAt 0) rfl rfl).2
  exact ⟨s2, h1, h2, h3, h4⟩

end ObservMetrics
